import Mathlib

/-!
Verification of the SBMS Windows Host (`sbms_windows_host.py`).

The host keeps two in-memory stores backed by JSON files: a contact
database keyed by phone number (`ContactDatabase.contacts`) and a message
queue keyed by message id (`MessageQueue.messages`).  Two dispatchers
(`BluetoothServer._process_message` for the device port and
`TCPServer._process_message` for the console port) translate parsed JSON
requests into store operations and a response.

Python dictionaries are modelled as association lists with
insert-or-replace-in-place semantics, which matches CPython `dict`
assignment (an existing key keeps its position, a new key is appended).
`message.get(k)` on a parsed JSON object yields `None` when the key is
absent, so every request field is an `Option`; in particular a missing
`id` makes the Python code key the messages dict by `None`, which is why
message-store keys are `Option String`.
-/

namespace SBMS

/-- Python-dict lookup on an association list. -/
def lookupA {K V : Type} [DecidableEq K] (k : K) : List (K × V) → Option V
  | [] => none
  | (k', v) :: rest => if k = k' then some v else lookupA k rest

/-- Python-dict assignment `d[k] = v`: replace in place if the key exists,
append otherwise. -/
def insertA {K V : Type} [DecidableEq K] (k : K) (v : V) : List (K × V) → List (K × V)
  | [] => [(k, v)]
  | (k', v') :: rest => if k = k' then (k, v) :: rest else (k', v') :: insertA k v rest

/-- A contact record as built by `ContactDatabase.add_contact`: the stored
dict has keys `name`, `phone`, `added`, `last_contact`.  `name` comes from
`contact.get('name')` and may be `None`; `last_contact` is always set to
`None` by this code. -/
structure Contact where
  name : Option String
  phone : String
  added : String
  last_contact : Option String
deriving DecidableEq, Repr

/-- One entry of the list carried by a `sync_contacts` request: the code
reads `contact.get('phone')` and `contact.get('name')`, both possibly
absent. -/
structure ContactEntry where
  name : Option String
  phone : Option String
deriving DecidableEq, Repr

/-- The contact store: `ContactDatabase.contacts`, keyed by phone number. -/
abbrev ContactsMap := List (String × Contact)

/-- A message record as built by `MessageQueue.add_message`.  `status` is
whatever string `sms_status` later stores (the code never validates it, and
`message.get('status')` may be `None`), hence `Option String`. -/
structure Message where
  id : Option String
  from_device : String
  to_number : Option String
  text : Option String
  status : Option String
  timestamp : String
  retry_count : Nat
deriving DecidableEq, Repr

/-- The message store: `MessageQueue.messages`, keyed by message id
(`None` when the request had no `id` field). -/
abbrev MessagesMap := List (Option String × Message)

/-- Embeds `ContactDatabase.add_contact`: unconditionally overwrite the entry for
`phone` with a fresh record (`last_contact` reset to `None`). -/
def add_contact (db : ContactsMap) (phone : String) (name : Option String)
    (now : String) : ContactsMap :=
  insertA phone { name := name, phone := phone, added := now, last_contact := none } db

/-- The loop body of `ContactDatabase.sync_from_device`: `if phone:` is
Python truthiness, so a missing or empty phone skips the entry, anything
else is upserted by `add_contact`. -/
def sync_step (db : ContactsMap) (c : ContactEntry) (now : String) : ContactsMap :=
  match c.phone with
  | none => db
  | some p => if p = "" then db else add_contact db p c.name now

/-- Embeds `ContactDatabase.sync_from_device`: for each entry whose `phone` is
truthy (present and non-empty), call `add_contact`; entries without a
truthy phone are skipped, and nothing is ever deleted. -/
def sync_from_device (db : ContactsMap) (contacts : List ContactEntry)
    (now : String) : ContactsMap :=
  contacts.foldl (fun acc c => sync_step acc c now) db

/-- Embeds `MessageQueue.add_message`: unconditionally overwrite the entry for
`msg_id` with a fresh record (`status` "pending", `retry_count` 0). -/
def add_message (q : MessagesMap) (msg_id : Option String)
    (to_number text : Option String) (from_device now : String) : MessagesMap :=
  insertA msg_id
    { id := msg_id, from_device := from_device, to_number := to_number,
      text := text, status := some "pending", timestamp := now, retry_count := 0 } q

/-- Embeds `MessageQueue.update_status`: if the id is known, overwrite its
`status` field with the requested value (no transition check); otherwise do
nothing. -/
def update_status (q : MessagesMap) (msg_id : Option String)
    (status : Option String) : MessagesMap :=
  match lookupA msg_id q with
  | none => q
  | some m => insertA msg_id { m with status := status } q

/-- Embeds `ContactDatabase._load`: `none` models a missing backing file,
`some none` a file that exists but fails to parse, `some (some d)` a file
parsed as `d`.  The first two cases initialize the store empty. -/
def contacts_load : Option (Option ContactsMap) → ContactsMap
  | none => []
  | some none => []
  | some (some d) => d

/-- Embeds `MessageQueue._load`, with the same encoding of the file outcome as
`contacts_load`. -/
def messages_load : Option (Option MessagesMap) → MessagesMap
  | none => []
  | some none => []
  | some (some d) => d

/-- The host's shared mutable state: the two stores. -/
structure HostState where
  contacts : ContactsMap
  messages : MessagesMap
deriving DecidableEq

/-- A parsed JSON request, as read by the dispatchers via `message.get`:
every field may be absent.  `contacts` distinguishes an absent field
(`none`, replaced by `[]` through `message.get('contacts', [])`) from a
present list. -/
structure Request where
  type : Option String
  device : Option String
  contacts : Option (List ContactEntry)
  id : Option String
  «to» : Option String
  text : Option String
  status : Option String
deriving DecidableEq

/-- The responses either dispatcher can build.  `ack`'s second component is
the optional `id` field of the JSON object (itself optional because the
echoed `msg_id` may be `None`). -/
inductive Response where
  | ack (status : String) (id : Option (Option String))
  | contacts (data : ContactsMap)
  | messages (data : MessagesMap)
  | pong
  | error (message : String)
  | statusPayload (contacts_count messages_count devices_connected : Nat)
      (timestamp : String)
deriving DecidableEq

/-- Embeds `BluetoothServer._process_message`: the device-port dispatcher.
`client_addr` is the connection address recorded as `from_device`; `now`
stands for `datetime.now().isoformat()`. -/
def bt_process_message (st : HostState) (req : Request)
    (client_addr now : String) : HostState × Response :=
  if req.type = some "identify" then
    (st, .ack "identified" none)
  else if req.type = some "get_contacts" then
    (st, .contacts st.contacts)
  else if req.type = some "sync_contacts" then
    ({ st with contacts := sync_from_device st.contacts (req.contacts.getD []) now },
     .ack "synced" none)
  else if req.type = some "send_message" then
    ({ st with messages := add_message st.messages req.id req.«to» req.text client_addr now },
     .ack "queued" (some req.id))
  else if req.type = some "sms_status" then
    ({ st with messages := update_status st.messages req.id req.status },
     .ack "received" none)
  else if req.type = some "ping" then
    (st, .pong)
  else
    (st, .error "Unknown message type")

/-- Embeds `TCPServer._process_message`: the console-port dispatcher.  `now`
stands for `datetime.now().isoformat()` in the status payload. -/
def tcp_process_message (st : HostState) (req : Request)
    (now : String) : HostState × Response :=
  if req.type = some "get_status" then
    (st, .statusPayload st.contacts.length st.messages.length 1 now)
  else if req.type = some "get_contacts" then
    (st, .contacts st.contacts)
  else if req.type = some "get_messages" then
    (st, .messages st.messages)
  else
    (st, .error "Unknown request")

/-- Substring test over character lists, used to state that an error
message "names" the offending request type. -/
def charsContain : List Char → List Char → Bool
  | _, [] => false
  | needle, c :: rest => needle.isPrefixOf (c :: rest) || charsContain needle rest

/-- Tests whether `needle` occurs inside `hay` (or is empty). -/
def mentions (hay needle : String) : Bool :=
  needle.data.isEmpty || charsContain needle.data hay.data

/-- Discriminates the error responses among `Response` values. -/
def Response.isError : Response → Bool
  | .error _ => true
  | _ => false

/-! Concrete fixtures used by counterexamples and witnesses. -/

/-- A request with every optional field absent, as `json.loads` of an
empty object would give the dispatcher. -/
def req0 : Request :=
  { type := none, device := none, contacts := none, id := none,
    «to» := none, text := none, status := none }

/-- The host state right after a fresh start with no backing files. -/
def stEmpty : HostState := { contacts := [], messages := [] }

/-- A message record that has reached the terminal `delivered` status. -/
def msgDelivered : Message :=
  { id := some "m1", from_device := "dev0", to_number := some "+46700000000",
    text := some "hi", status := some "delivered",
    timestamp := "2025-01-01T00:00:00", retry_count := 0 }

def stC1 : HostState := { contacts := [], messages := [(some "m1", msgDelivered)] }

def reqC1 : Request :=
  { req0 with type := some "sms_status", id := some "m1", status := some "pending" }

/-- A message record already `sent`, with a nonzero retry count. -/
def msgSent5 : Message :=
  { id := some "m2", from_device := "dev0", to_number := some "+46700000001",
    text := some "yo", status := some "sent",
    timestamp := "2025-01-01T00:00:00", retry_count := 5 }

def stC2 : HostState := { contacts := [], messages := [(some "m2", msgSent5)] }

def reqC2 : Request :=
  { req0 with
    type := some "send_message"
    id := some "m2"
    «to» := some "+46700000001"
    text := some "yo" }

/-- A message record in status `failed` with two recorded retries. -/
def msgFailed2 : Message :=
  { id := some "m3", from_device := "dev0", to_number := some "+46700000002",
    text := some "again", status := some "failed",
    timestamp := "2025-01-01T00:00:00", retry_count := 2 }

def stC3 : HostState := { contacts := [], messages := [(some "m3", msgFailed2)] }

def reqC3 : Request :=
  { req0 with
    type := some "send_message"
    id := some "m3"
    «to» := some "+46700000002"
    text := some "again" }

/-- A contact stored before a sync, owned by phone number "+1". -/
def oldAlice : Contact :=
  { name := some "Alice", phone := "+1", added := "t0", last_contact := none }

/-- A synced contact list that does NOT mention phone "+1". -/
def listC4 : List ContactEntry := [{ name := some "Bob", phone := some "+2" }]

def stC4 : HostState := { contacts := [("+1", oldAlice)], messages := [] }

def reqC4 : Request :=
  { req0 with type := some "sync_contacts", contacts := some listC4 }

def reqC5 : Request :=
  { req0 with
    type := some "send_message"
    id := some "m5"
    «to» := some "+46700000005"
    text := some "hello" }

/-- A bare `get_messages` request. -/
def reqGetMessages : Request := { req0 with type := some "get_messages" }

def reqC6 : Request :=
  { req0 with type := some "sms_status", id := some "ghost", status := some "delivered" }

/-- A `send_message` request with all of `id`, `to`, `text` missing. -/
def reqC7 : Request := { req0 with type := some "send_message" }

/-- A request whose type matches no known operation. -/
def reqC8 : Request := { req0 with type := some "frobnicate" }

def stC10 : HostState :=
  { contacts := [("+46701234567",
      { name := some "Alice", phone := "+46701234567", added := "t0",
        last_contact := none })],
    messages := [] }

/-- A bare `get_contacts` request. -/
def reqGetContacts : Request := { req0 with type := some "get_contacts" }

/-! Helper lemmas about the association-list operations. -/

theorem lookupA_insertA_self {K V : Type} [DecidableEq K] (k : K) (v : V)
    (l : List (K × V)) : lookupA k (insertA k v l) = some v := by
  induction l with
  | nil => simp [insertA, lookupA]
  | cons hd tl ih =>
    by_cases h : k = hd.1
    · simp [insertA, lookupA, h]
    · simp [insertA, lookupA, h, ih]

theorem lookupA_insertA_ne {K V : Type} [DecidableEq K] {k k' : K} (v : V)
    (l : List (K × V)) (h : k ≠ k') :
    lookupA k (insertA k' v l) = lookupA k l := by
  induction l with
  | nil => simp [insertA, lookupA, h]
  | cons hd tl ih =>
    by_cases h' : k' = hd.1
    · have hne : k ≠ hd.1 := h' ▸ h
      simp [insertA, lookupA, h', hne]
    · by_cases h'' : k = hd.1
      · simp [insertA, lookupA, h', h'']
      · simp [insertA, lookupA, h', h'', ih]

theorem lookupA_insertA_isSome {K V : Type} [DecidableEq K] (k k' : K) (v : V)
    (l : List (K × V)) (h : (lookupA k l).isSome = true) :
    (lookupA k (insertA k' v l)).isSome = true := by
  by_cases hk : k = k'
  · subst hk; simp [lookupA_insertA_self]
  · rw [lookupA_insertA_ne v l hk]; exact h

theorem sync_from_device_cons (db : ContactsMap) (c : ContactEntry)
    (L : List ContactEntry) (now : String) :
    sync_from_device db (c :: L) now = sync_from_device (sync_step db c now) L now := rfl

/-- One sync step leaves every other phone's binding untouched. -/
theorem lookupA_sync_step {db : ContactsMap} {c : ContactEntry} {now p : String}
    (hc : c.phone ≠ some p) :
    lookupA p (sync_step db c now) = lookupA p db := by
  cases hph : c.phone with
  | none => simp [sync_step, hph]
  | some q =>
    have hqp : p ≠ q := fun h => hc (by rw [hph, h])
    by_cases hq : q = ""
    · simp [sync_step, hph, hq]
    · simp [sync_step, hph, hq, add_contact, lookupA_insertA_ne _ _ hqp]

/-- A phone not carried (truthily) by any entry of the synced list keeps
its prior binding through `sync_from_device`. -/
theorem sync_from_device_preserves {db : ContactsMap} {L : List ContactEntry}
    {now : String} {p : String} (hp : ∀ c ∈ L, c.phone ≠ some p) :
    lookupA p (sync_from_device db L now) = lookupA p db := by
  induction L generalizing db with
  | nil => rfl
  | cons c L ih =>
    rw [sync_from_device_cons,
      ih fun c' h => hp c' (List.mem_cons_of_mem c h),
      lookupA_sync_step (hp c (List.mem_cons_self c L))]

/-- A phone already present stays present through `sync_from_device`. -/
theorem sync_from_device_keeps_isSome {db : ContactsMap} {L : List ContactEntry}
    {now : String} {p : String} (h : (lookupA p db).isSome = true) :
    (lookupA p (sync_from_device db L now)).isSome = true := by
  induction L generalizing db with
  | nil => exact h
  | cons c L ih =>
    rw [sync_from_device_cons]
    apply ih
    cases hph : c.phone with
    | none => simpa [sync_step, hph] using h
    | some q =>
      by_cases hq : q = ""
      · simpa [sync_step, hph, hq] using h
      · simpa [sync_step, hph, hq, add_contact] using
          lookupA_insertA_isSome p q _ db h

/-- Every entry of the synced list with a truthy phone ends up present. -/
theorem sync_from_device_mem {db : ContactsMap} {L : List ContactEntry}
    {now : String} {p : String} {c : ContactEntry} (hc : c ∈ L)
    (hph : c.phone = some p) (hne : p ≠ "") :
    (lookupA p (sync_from_device db L now)).isSome = true := by
  induction L generalizing db with
  | nil => cases hc
  | cons c' L ih =>
    rw [sync_from_device_cons]
    rcases List.mem_cons.mp hc with h | h
    · subst h
      apply sync_from_device_keeps_isSome
      simp [sync_step, hph, hne, add_contact, lookupA_insertA_self]
    · exact ih h

/-! Claim theorems. -/

/-- C1 counterexample: with message `m1` stored as `delivered`, an
`sms_status` request carrying the backward transition to `pending` does
NOT leave the stored record unchanged — `update_status` overwrites the
status with no monotonicity check, so the record moves back to `pending`. -/
theorem C1_counterexample :
    msgDelivered.status = some "delivered" ∧
    (bt_process_message stC1 reqC1 "addr" "t1").1.messages ≠ stC1.messages ∧
    lookupA (some "m1") (bt_process_message stC1 reqC1 "addr" "t1").1.messages =
      some { msgDelivered with status := some "pending" } := by
  refine ⟨rfl, by decide, by decide⟩

/-- C1 (amended): an `sms_status` request for a message id present in the
store overwrites that record's status with the requested value — forward
or backward, with no transition check — and answers with an ack; only an
unknown id leaves the store unchanged. -/
theorem C1_amended_overwrite (st : HostState) (req : Request) (addr now : String)
    (m : Message) (ht : req.type = some "sms_status")
    (hm : lookupA req.id st.messages = some m) :
    lookupA req.id (bt_process_message st req addr now).1.messages =
      some { m with status := req.status } ∧
    (bt_process_message st req addr now).2 = Response.ack "received" none := by
  simp [bt_process_message, ht, update_status, hm, lookupA_insertA_self]

/-- C1 witness: the amended theorem applied at the `delivered → pending`
fixture. -/
theorem C1_witness :
    lookupA (some "m1") (bt_process_message stC1 reqC1 "addr" "t1").1.messages =
      some { msgDelivered with status := some "pending" } ∧
    (bt_process_message stC1 reqC1 "addr" "t1").2 = Response.ack "received" none :=
  C1_amended_overwrite stC1 reqC1 "addr" "t1" msgDelivered rfl rfl

/-- C2 counterexample: with `m2` stored as `sent` and `retry_count` 5, a
second `send_message` with the same id is NOT a no-op: `add_message`
unconditionally replaces the record with a fresh `pending` one, resetting
`retry_count` to 0 and overwriting `from_device` and `timestamp`. -/
theorem C2_counterexample :
    msgSent5.status = some "sent" ∧ msgSent5.retry_count = 5 ∧
    lookupA (some "m2") (bt_process_message stC2 reqC2 "addr2" "t2").1.messages ≠
      some msgSent5 ∧
    Option.map Message.retry_count
      (lookupA (some "m2") (bt_process_message stC2 reqC2 "addr2" "t2").1.messages) =
      some 0 ∧
    Option.map Message.status
      (lookupA (some "m2") (bt_process_message stC2 reqC2 "addr2" "t2").1.messages) =
      some (some "pending") := by
  refine ⟨rfl, rfl, by decide, by decide, by decide⟩

/-- C2 (amended): a second `send_message` with an id whose stored status
is `sent` or `delivered` still returns an ack carrying the id, but it is
not a no-op: the stored record is replaced by a brand-new `pending`
record with `retry_count` 0 and the new request's `from_device` and
`timestamp`. -/
theorem C2_amended (st : HostState) (req : Request) (addr now : String)
    (m : Message) (ht : req.type = some "send_message")
    (hm : lookupA req.id st.messages = some m)
    (hs : m.status = some "sent" ∨ m.status = some "delivered") :
    (bt_process_message st req addr now).2 = Response.ack "queued" (some req.id) ∧
    lookupA req.id (bt_process_message st req addr now).1.messages =
      some { id := req.id, from_device := addr, to_number := req.«to»,
             text := req.text, status := some "pending", timestamp := now,
             retry_count := 0 } := by
  simp [bt_process_message, ht, add_message, lookupA_insertA_self]

/-- C2 witness: the amended theorem applied at the `sent` fixture. -/
theorem C2_witness :
    (bt_process_message stC2 reqC2 "addr2" "t2").2 =
      Response.ack "queued" (some (some "m2")) ∧
    lookupA (some "m2") (bt_process_message stC2 reqC2 "addr2" "t2").1.messages =
      some { id := some "m2", from_device := "addr2",
             to_number := some "+46700000001", text := some "yo",
             status := some "pending", timestamp := "t2", retry_count := 0 } := by
  simpa [reqC2, req0] using C2_amended stC2 reqC2 "addr2" "t2" msgSent5 rfl rfl (Or.inl rfl)

/-- C3 counterexample: with `m3` stored as `failed` with `retry_count` 2,
a `send_message` with that id does NOT increment `retry_count` to 3 —
`add_message` replaces the record wholesale, resetting `retry_count`
to 0. -/
theorem C3_counterexample :
    msgFailed2.status = some "failed" ∧ msgFailed2.retry_count = 2 ∧
    Option.map Message.retry_count
      (lookupA (some "m3") (bt_process_message stC3 reqC3 "a" "t3").1.messages) ≠
      some (msgFailed2.retry_count + 1) ∧
    Option.map Message.retry_count
      (lookupA (some "m3") (bt_process_message stC3 reqC3 "a" "t3").1.messages) =
      some 0 := by
  refine ⟨rfl, rfl, by decide, by decide⟩

/-- C3 (amended): `send_message` on an id whose stored status is `failed`
does set the status back to `pending`, but it resets `retry_count` to 0
instead of incrementing it by 1: the record is replaced by a fresh one. -/
theorem C3_amended (st : HostState) (req : Request) (addr now : String)
    (m : Message) (ht : req.type = some "send_message")
    (hm : lookupA req.id st.messages = some m)
    (hs : m.status = some "failed") :
    Option.map Message.status
      (lookupA req.id (bt_process_message st req addr now).1.messages) =
      some (some "pending") ∧
    Option.map Message.retry_count
      (lookupA req.id (bt_process_message st req addr now).1.messages) =
      some 0 := by
  simp [bt_process_message, ht, add_message, lookupA_insertA_self]

/-- C3 witness: the amended theorem applied at the `failed` fixture. -/
theorem C3_witness :
    Option.map Message.status
      (lookupA (some "m3") (bt_process_message stC3 reqC3 "a" "t3").1.messages) =
      some (some "pending") ∧
    Option.map Message.retry_count
      (lookupA (some "m3") (bt_process_message stC3 reqC3 "a" "t3").1.messages) =
      some 0 :=
  C3_amended stC3 reqC3 "a" "t3" msgFailed2 rfl rfl rfl

/-- C4 counterexample: contact "+1" is stored before the sync and absent
from the synced list, yet after `sync_contacts` it is still stored —
`sync_from_device` only upserts, it never deletes, so the resulting set is
not "exactly the entries of L keyed by phone". -/
theorem C4_counterexample :
    lookupA "+1" stC4.contacts = some oldAlice ∧
    (∀ c ∈ listC4, c.phone ≠ some "+1") ∧
    lookupA "+1" (bt_process_message stC4 reqC4 "a4" "t4").1.contacts =
      some oldAlice := by
  refine ⟨rfl, by decide, by decide⟩

/-- C4 (amended): `sync_contacts` is an upsert, not a replacement: it
returns an ack, every synced entry with a truthy (present, non-empty)
phone ends up present keyed by that phone, and every phone not truthily
mentioned in the synced list keeps its prior binding — in particular
contacts absent from the list are retained, not deleted. -/
theorem C4_amended (st : HostState) (req : Request) (addr now : String)
    (ht : req.type = some "sync_contacts") :
    (bt_process_message st req addr now).2 = Response.ack "synced" none ∧
    (∀ p, (∀ c ∈ req.contacts.getD [], c.phone ≠ some p) →
      lookupA p (bt_process_message st req addr now).1.contacts =
        lookupA p st.contacts) ∧
    (∀ p c, c ∈ req.contacts.getD [] → c.phone = some p → p ≠ "" →
      (lookupA p (bt_process_message st req addr now).1.contacts).isSome = true) := by
  have hred : bt_process_message st req addr now =
      ({ st with contacts := sync_from_device st.contacts (req.contacts.getD []) now },
       Response.ack "synced" none) := by
    simp [bt_process_message, ht]
  rw [hred]
  exact ⟨rfl, fun p hp => sync_from_device_preserves hp,
    fun p c hc hph hne => sync_from_device_mem hc hph hne⟩

/-- C4 witness: the amended theorem applied at the fixture sync. -/
theorem C4_witness :
    lookupA "+1" (bt_process_message stC4 reqC4 "a4" "t4").1.contacts =
      lookupA "+1" stC4.contacts ∧
    (lookupA "+2" (bt_process_message stC4 reqC4 "a4" "t4").1.contacts).isSome = true :=
  ⟨(C4_amended stC4 reqC4 "a4" "t4" rfl).2.1 "+1" (by decide),
   (C4_amended stC4 reqC4 "a4" "t4" rfl).2.2 "+2" ⟨some "Bob", some "+2"⟩
     (by decide) rfl (by decide)⟩

/-- C5: a `send_message` whose id is not yet in the store leads a
subsequent `get_messages` on the console port to answer with the full
message map, in which that id is bound to a record with status `pending`
and `retry_count` 0. -/
theorem C5_fresh_send_visible (st : HostState) (req req2 : Request)
    (addr now now2 i : String)
    (ht : req.type = some "send_message") (hid : req.id = some i)
    (hfresh : lookupA (some i) st.messages = none)
    (ht2 : req2.type = some "get_messages") :
    (tcp_process_message (bt_process_message st req addr now).1 req2 now2).2 =
      Response.messages (bt_process_message st req addr now).1.messages ∧
    Option.map Message.status
      (lookupA (some i) (bt_process_message st req addr now).1.messages) =
      some (some "pending") ∧
    Option.map Message.retry_count
      (lookupA (some i) (bt_process_message st req addr now).1.messages) =
      some 0 := by
  have hbt : (bt_process_message st req addr now).1.messages =
      insertA (some i)
        { id := some i, from_device := addr, to_number := req.«to»,
          text := req.text, status := some "pending", timestamp := now,
          retry_count := 0 } st.messages := by
    simp [bt_process_message, ht, add_message, hid]
  refine ⟨by simp [tcp_process_message, ht2], ?_, ?_⟩ <;>
    rw [hbt, lookupA_insertA_self] <;> rfl

/-- C5 witness: a fresh send of "m5" on the empty store, then
`get_messages`. -/
theorem C5_witness :
    (tcp_process_message (bt_process_message stEmpty reqC5 "a5" "t5").1
        reqGetMessages "t6").2 =
      Response.messages (bt_process_message stEmpty reqC5 "a5" "t5").1.messages ∧
    Option.map Message.status
      (lookupA (some "m5") (bt_process_message stEmpty reqC5 "a5" "t5").1.messages) =
      some (some "pending") ∧
    Option.map Message.retry_count
      (lookupA (some "m5") (bt_process_message stEmpty reqC5 "a5" "t5").1.messages) =
      some 0 :=
  C5_fresh_send_visible stEmpty reqC5 reqGetMessages "a5" "t5" "t6" "m5" rfl rfl rfl rfl

/-- C6: an `sms_status` request whose id is not in the message store
leaves the whole host state unchanged and is still answered with an ack
(`update_status` silently ignores unknown ids; the dispatcher never
builds an error response for them). -/
theorem C6_unknown_id_acked (st : HostState) (req : Request) (addr now : String)
    (ht : req.type = some "sms_status")
    (hunk : lookupA req.id st.messages = none) :
    bt_process_message st req addr now = (st, Response.ack "received" none) := by
  simp [bt_process_message, ht, update_status, hunk]

/-- C6 witness: status report for the never-seen id "ghost" on the empty
store. -/
theorem C6_witness :
    bt_process_message stEmpty reqC6 "a6" "t6" = (stEmpty, Response.ack "received" none) :=
  C6_unknown_id_acked stEmpty reqC6 "a6" "t6" rfl rfl

/-- C7 counterexample: a `send_message` with `id`, `to` and `text` all
missing is NOT rejected with an error payload: the dispatcher answers
with an ack echoing the missing id, and `add_message` creates a store
record keyed by the missing id — contradicting both halves of the
claim. -/
theorem C7_counterexample :
    reqC7.id = none ∧ reqC7.«to» = none ∧ reqC7.text = none ∧
    (bt_process_message stEmpty reqC7 "a7" "t7").2 =
      Response.ack "queued" (some none) ∧
    Response.isError (bt_process_message stEmpty reqC7 "a7" "t7").2 = false ∧
    lookupA none (bt_process_message stEmpty reqC7 "a7" "t7").1.messages =
      some { id := none, from_device := "a7", to_number := none, text := none,
             status := some "pending", timestamp := "t7", retry_count := 0 } := by
  refine ⟨rfl, rfl, rfl, by decide, by decide, by decide⟩

/-- C7 (amended): a `send_message` missing its required fields is still
processed: no validation occurs, the dispatcher returns an ack whose `id`
field is the missing value, and a fresh `pending` record keyed by the
absent id is written to the store. -/
theorem C7_amended (st : HostState) (req : Request) (addr now : String)
    (ht : req.type = some "send_message") (hid : req.id = none) :
    (bt_process_message st req addr now).2 = Response.ack "queued" (some none) ∧
    lookupA none (bt_process_message st req addr now).1.messages =
      some { id := none, from_device := addr, to_number := req.«to»,
             text := req.text, status := some "pending", timestamp := now,
             retry_count := 0 } := by
  simp [bt_process_message, ht, add_message, hid, lookupA_insertA_self]

/-- C7 witness: the amended theorem applied at the field-free
`send_message` fixture. -/
theorem C7_witness :
    (bt_process_message stEmpty reqC7 "a7" "t7").2 =
      Response.ack "queued" (some none) ∧
    lookupA none (bt_process_message stEmpty reqC7 "a7" "t7").1.messages =
      some { id := none, from_device := "a7", to_number := none, text := none,
             status := some "pending", timestamp := "t7", retry_count := 0 } := by
  simpa [reqC7, req0] using C7_amended stEmpty reqC7 "a7" "t7" rfl rfl

/-- C8 counterexample: the unknown type "frobnicate" does get an error
payload with no state change, but the payload's message is the fixed
string "Unknown message type", which does not name (contain) the unknown
type. -/
theorem C8_counterexample :
    (bt_process_message stEmpty reqC8 "a8" "t8").1 = stEmpty ∧
    (bt_process_message stEmpty reqC8 "a8" "t8").2 =
      Response.error "Unknown message type" ∧
    mentions "Unknown message type" "frobnicate" = false := by
  refine ⟨by decide, by decide, by decide⟩

/-- C8 (amended): a request whose type matches no known operation changes
no state and is answered with a fixed error payload — "Unknown message
type" on the device port, "Unknown request" on the console port — which
does not name the offending type; since the state is untouched, the
connection stays usable for subsequent requests. -/
theorem C8_amended (st : HostState) (req : Request) (addr now now2 t : String)
    (ht : req.type = some t)
    (h1 : t ≠ "identify") (h2 : t ≠ "get_contacts") (h3 : t ≠ "sync_contacts")
    (h4 : t ≠ "send_message") (h5 : t ≠ "sms_status") (h6 : t ≠ "ping")
    (h7 : t ≠ "get_status") (h8 : t ≠ "get_messages") :
    bt_process_message st req addr now = (st, Response.error "Unknown message type") ∧
    tcp_process_message st req now2 = (st, Response.error "Unknown request") := by
  constructor
  · simp [bt_process_message, ht, h1, h2, h3, h4, h5, h6]
  · simp [tcp_process_message, ht, h2, h7, h8]

/-- C8 witness: the amended theorem applied at the "frobnicate" fixture. -/
theorem C8_witness :
    bt_process_message stEmpty reqC8 "a8" "t8" =
      (stEmpty, Response.error "Unknown message type") ∧
    tcp_process_message stEmpty reqC8 "t9" =
      (stEmpty, Response.error "Unknown request") :=
  C8_amended stEmpty reqC8 "a8" "t8" "t9" "frobnicate" rfl (by decide) (by decide)
    (by decide) (by decide) (by decide) (by decide) (by decide) (by decide)

/-- C9: both `_load` routines initialize the store empty when the backing
file is missing or unparsable, and take exactly the parsed contents when
it parses. -/
theorem C9_load_behaviour (dc : ContactsMap) (dm : MessagesMap) :
    contacts_load none = [] ∧ contacts_load (some none) = [] ∧
    contacts_load (some (some dc)) = dc ∧
    messages_load none = [] ∧ messages_load (some none) = [] ∧
    messages_load (some (some dm)) = dm :=
  ⟨rfl, rfl, rfl, rfl, rfl, rfl⟩

/-- C10: a `get_contacts` request is answered identically on the
device-facing and console-facing dispatchers: both leave the state
unchanged and reply with a contacts payload whose data is the full stored
contact map. -/
theorem C10_ports_agree (st : HostState) (req : Request) (addr now now2 : String)
    (ht : req.type = some "get_contacts") :
    bt_process_message st req addr now = (st, Response.contacts st.contacts) ∧
    tcp_process_message st req now2 = (st, Response.contacts st.contacts) := by
  constructor
  · simp [bt_process_message, ht]
  · simp [tcp_process_message, ht]

/-- C10 witness: both ports answer `get_contacts` with the same single
Alice entry. -/
theorem C10_witness :
    bt_process_message stC10 reqGetContacts "a10" "t10" =
      (stC10, Response.contacts stC10.contacts) ∧
    tcp_process_message stC10 reqGetContacts "t11" =
      (stC10, Response.contacts stC10.contacts) :=
  C10_ports_agree stC10 reqGetContacts "a10" "t10" "t11" rfl

end SBMS
